import Mathlib

/-!
Verification of the code/canvas synchronization and export pipeline of the
Vite HTML Editor repository.

The development shallowly embeds the pure logic of the repository:

* string helpers and the export assembler from src/App.tsx
  (escapeHtml, the base-name sanitization inside exportProjectFiles,
  the exported document template, safeJsonParse and the persisted-settings
  initializers);
* the editor glue from src/editor/sync.ts
  (getEditorHtml, getEditorCss, applyGlobalCss, applyHtmlToSelected);
* the CodeTabs component from src/code/CodeTabs.tsx
  (applyEdits, the sync regeneration, and the requestAnimationFrame
  coalescing flag).

The GrapesJS Document Engine is an external collaborator; it is modelled as a
record holding its observable state (html serialization, stored stylesheet,
selection) together with its behaviour at the narrow consumed interface:
cssSer stands for the serialize-after-parse normalization performed by the
CssComposer, and setChildren stands for the components call on the selected
node, returning either the new serialization or the message of the thrown
exception. Failure of setChildren is modelled as atomic, following the
contract the spec states for the engine.
-/

/-! ## String helpers -/

/-- Containment of a substring, stated as an explicit decomposition. -/
def strContains (s sub : String) : Prop :=
  ∃ pre post, s = pre ++ (sub ++ post)

/-- The character class matched by the backslash-s regex escape in
JavaScript, used by the whitespace-collapsing replace in exportProjectFiles
and by String.prototype.trim. -/
def isJsWs (c : Char) : Bool :=
  c = ' ' || c = '\t' || c = '\n' || c = '\r' || c = '\x0b' || c = '\x0c' ||
  c = '\xa0' || c = '\u1680' || c = '\u2000' || c = '\u2001' || c = '\u2002' ||
  c = '\u2003' || c = '\u2004' || c = '\u2005' || c = '\u2006' || c = '\u2007' ||
  c = '\u2008' || c = '\u2009' || c = '\u200a' || c = '\u2028' || c = '\u2029' ||
  c = '\u202f' || c = '\u205f' || c = '\u3000' || c = '\ufeff'

/-- JavaScript String.prototype.trim: drop surrounding whitespace. -/
def jsTrim (s : String) : String :=
  String.mk (((s.data.dropWhile isJsWs).reverse.dropWhile isJsWs).reverse)

/-- The character class of the first sanitizing regex in exportProjectFiles
(src/App.tsx line 249): backslash, slash, colon, star, question mark,
double quote, angle brackets, pipe. -/
def isBadFileChar (c : Char) : Bool :=
  c = '\\' || c = '/' || c = ':' || c = '*' || c = '?' || c = '"' ||
  c = '<' || c = '>' || c = '|'

/-- Replace every maximal run of characters satisfying p by the single
character d, as a global regex replace of a one-or-more character class
does. The boolean argument records whether the previous character was part
of a run. -/
def collapseRunsAux (p : Char → Bool) (d : Char) : Bool → List Char → List Char
  | _, [] => []
  | inRun, c :: cs =>
    if p c then
      if inRun then collapseRunsAux p d true cs
      else d :: collapseRunsAux p d true cs
    else c :: collapseRunsAux p d false cs

/-- String version of collapseRunsAux, starting outside any run. -/
def replaceRuns (p : Char → Bool) (d : Char) (s : String) : String :=
  String.mk (collapseRunsAux p d false s.data)

/-- JavaScript replaceAll for a single-character pattern. -/
def replaceAllChar (s : String) (c : Char) (r : String) : String :=
  String.mk (s.data.foldr (fun a acc => if a = c then r.data ++ acc else a :: acc) [])

/-- escapeHtml from src/App.tsx lines 83 to 90: five sequential replaceAll
calls, the ampersand first. -/
def escapeHtml (s : String) : String :=
  replaceAllChar
    (replaceAllChar
      (replaceAllChar
        (replaceAllChar
          (replaceAllChar s '&' "&amp;")
          '<' "&lt;")
        '>' "&gt;")
      '"' "&quot;")
    '\x27' "&#39;"

/-! ## Document Engine model and the sync glue (src/editor/sync.ts) -/

/-- Result record returned by applyHtmlToSelected. -/
structure ApplyResult where
  ok : Bool
  message : String

/-- Model of the GrapesJS editor at the consumed interface: htmlText is the
current component-tree serialization, cssText the stylesheet last stored in
the CssComposer, cssSer the serialize-after-parse normalization applied when
getCss reads it back, selected the current selection, and setChildren the
behaviour of the components call on the selected node (Except.error e models
a thrown exception whose stringified cause is e). -/
structure GEditor where
  htmlText : String
  cssText : String
  cssSer : String → String
  selected : Option Nat
  setChildren : Nat → String → Except String String

/-- getEditorHtml from src/editor/sync.ts: editor.getHtml(). -/
def getEditorHtml (ed : GEditor) : String := ed.htmlText

/-- getEditorCss from src/editor/sync.ts: editor.getCss(), the serialization
of the stored stylesheet. -/
def getEditorCss (ed : GEditor) : String := ed.cssSer ed.cssText

/-- applyGlobalCss from src/editor/sync.ts: editor.setStyle(css), a full
replacement of the global stylesheet. -/
def applyGlobalCss (ed : GEditor) (css : String) : GEditor :=
  { ed with cssText := css }

/-- applyHtmlToSelected from src/editor/sync.ts lines 265 to 278: fail when
nothing is selected, otherwise assign the fragment as children of the
selected node, catching any exception. -/
def applyHtmlToSelected (ed : GEditor) (html : String) : GEditor × ApplyResult :=
  match ed.selected with
  | none =>
    (ed, { ok := false,
           message := "No component selected. Click an element on the canvas, then apply HTML." })
  | some sel =>
    match ed.setChildren sel html with
    | Except.ok newHtml =>
      ({ ed with htmlText := newHtml },
       { ok := true, message := "Applied HTML to the selected component." })
    | Except.error e =>
      (ed, { ok := false, message := "Failed to apply HTML: " ++ e })

/-! ## Export assembler (src/App.tsx, exportProjectFiles) -/

/-- The persisted head settings record of src/App.tsx. -/
structure HeadSettings where
  pageTitle : String
  headHtml : String
  exportBaseName : String

/-- Base filename computed in exportProjectFiles, lines 247 to 250: default
for an empty raw value, trim, replace runs of forbidden filename characters
by a dash, then replace whitespace runs by a dash. -/
def exportBase (raw : String) : String :=
  replaceRuns isJsWs '-'
    (replaceRuns isBadFileChar '-'
      (jsTrim (if raw = "" then "vite-html-editor-export" else raw)))

/-- Effective page title computed in exportProjectFiles line 252: default
for an empty raw value, then trim. -/
def effPageTitle (t : String) : String :=
  jsTrim (if t = "" then "Vite HTML Editor Export" else t)

/-- Effective head fragment computed in exportProjectFiles line 253: the
or-empty guard, which is the identity on strings. -/
def effHeadHtml (h : String) : String :=
  if h = "" then "" else h

/-- The exported html document template of exportProjectFiles, lines 255 to
268, with the same literal text and splice points. -/
def exportHtmlDoc (html : String) (hs : HeadSettings) : String :=
  let base := exportBase hs.exportBaseName
  let pageTitle := effPageTitle hs.pageTitle
  let headHtml := effHeadHtml hs.headHtml
  "<!doctype html>\n<html lang=\"en\">\n<head>\n  <meta charset=\"utf-8\" />\n  <meta name=\"viewport\" content=\"width=device-width,initial-scale=1\" />\n  <title>" ++
    escapeHtml pageTitle ++ "</title>\n" ++ headHtml ++
    "\n  <link rel=\"stylesheet\" href=\"./" ++ base ++
    ".css\" />\n</head>\n<body>\n" ++ html ++
    "\n<script src=\"./" ++ base ++ ".js\"></script>\n</body>\n</html>"

/-- One downloadable artifact: filename, content and mime type, as passed to
downloadFile. -/
structure ExportFile where
  filename : String
  content : String
  mime : String

/-- exportProjectFiles from src/App.tsx lines 240 to 273, as the triple of
payloads it downloads, in download order. -/
def exportProjectFiles (ed : GEditor) (jsValue : String) (hs : HeadSettings) : List ExportFile :=
  let html := getEditorHtml ed
  let css := getEditorCss ed
  let js := jsValue
  let base := exportBase hs.exportBaseName
  [{ filename := base ++ ".html", content := exportHtmlDoc html hs,
     mime := "text/html;charset=utf-8" },
   { filename := base ++ ".css", content := css, mime := "text/css;charset=utf-8" },
   { filename := base ++ ".js", content := js, mime := "text/javascript;charset=utf-8" }]

/-! ## CodeTabs model (src/code/CodeTabs.tsx) -/

/-- The active code tab. -/
inductive Tab where
  | html
  | css
  | js

/-- The local state of the CodeTabs component that applyEdits touches. -/
structure TabsState where
  tab : Tab
  htmlValue : String
  cssValue : String
  jsValue : String
  status : String

/-- applyEdits from src/code/CodeTabs.tsx lines 113 to 134: no-op without an
editor; with advanced mode off, only set the status; otherwise dispatch on
the active tab. -/
def applyEdits (editor : Option GEditor) (advancedMode : Bool) (st : TabsState) :
    Option GEditor × TabsState :=
  match editor with
  | none => (none, st)
  | some ed =>
    if !advancedMode then
      (some ed, { st with status := "Enable Advanced Editing Mode to apply changes." })
    else
      match st.tab with
      | Tab.css =>
        (some (applyGlobalCss ed st.cssValue), { st with status := "Applied CSS globally." })
      | Tab.html =>
        let r := applyHtmlToSelected ed st.htmlValue
        (some r.1, { st with status := r.2.message })
      | Tab.js => (some ed, { st with status := "JS saved for export." })

/-- The slice of CodeTabs state driving forward sync: the armed flag is the
rafRef holding a pending requestAnimationFrame id, htmlValue and cssValue
are the synced text, and regenCount counts executed regenerations. -/
structure SyncState where
  armed : Bool
  htmlValue : String
  cssValue : String
  regenCount : Nat

/-- The sync closure of src/code/CodeTabs.tsx lines 32 to 41: read the html
serialization, then the css serialization, and store both: a full replace.
The engine getters are modelled as total, so the catch branch is not
reachable in the model. -/
def syncRegen (ed : GEditor) (s : SyncState) : SyncState :=
  { s with htmlValue := getEditorHtml ed, cssValue := getEditorCss ed,
           regenCount := s.regenCount + 1 }

/-- scheduleSync from src/code/CodeTabs.tsx lines 43 to 49: a change event
arms the flag unless it is already armed. -/
def scheduleSync (s : SyncState) : SyncState :=
  if s.armed then s else { s with armed := true }

/-- Fire n change events within the same frame: each one runs scheduleSync. -/
def fireEvents : Nat → SyncState → SyncState
  | 0, s => s
  | n + 1, s => fireEvents n (scheduleSync s)

/-- The requestAnimationFrame callback at the frame boundary: when armed,
clear the flag and regenerate once; when nothing was scheduled, do nothing. -/
def frameCallback (ed : GEditor) (s : SyncState) : SyncState :=
  if s.armed then syncRegen ed { s with armed := false } else s

/-- Run the sync regeneration n times in a row against an unchanged engine. -/
def iterSync (ed : GEditor) : Nat → SyncState → SyncState
  | 0, s => s
  | n + 1, s => iterSync ed n (syncRegen ed s)

/-! ## Persisted settings initializers (src/App.tsx lines 52 to 133) -/

/-- The four values of the ThemeChoice union type of src/App.tsx. -/
def themeChoices : List String := ["auto", "dark", "dim", "light"]

/-- The themeChoice initializer of src/App.tsx lines 103 to 106: the stored
string, when present, is used as-is through a type cast; only a missing
entry falls back to auto. -/
def initThemeChoice (raw : Option String) : String :=
  match raw with
  | none => "auto"
  | some s => s

/-- safeJsonParse from src/App.tsx lines 52 to 59: falsy input (missing or
empty) and parse failure both fall back. The parse argument models
JSON.parse followed by the unchecked cast: none models a thrown parse
error. -/
def safeJsonParse {α : Type} (parse : String → Option α) (raw : Option String) (fallback : α) : α :=
  match raw with
  | none => fallback
  | some s => if s = "" then fallback else (parse s).getD fallback

/-- The seven optional palette overrides of src/App.tsx. -/
structure CustomPalette where
  bg : Option String
  panel : Option String
  panel2 : Option String
  border : Option String
  text : Option String
  muted : Option String
  accent : Option String

/-- The headSettings default of src/App.tsx lines 110 to 114. -/
def defaultHeadSettings : HeadSettings :=
  { pageTitle := "Vite HTML Editor Export", headHtml := "",
    exportBaseName := "vite-html-editor-export" }

/-- The customPalette default of src/App.tsx lines 124 to 132. -/
def defaultCustomPalette : CustomPalette :=
  { accent := some "", bg := some "", panel := some "", panel2 := some "",
    border := some "", text := some "", muted := some "" }

/-- The headSettings initializer of src/App.tsx lines 109 to 115. -/
def initHeadSettings (parse : String → Option HeadSettings) (raw : Option String) : HeadSettings :=
  safeJsonParse parse raw defaultHeadSettings

/-- The customPalette initializer of src/App.tsx lines 123 to 133. -/
def initCustomPalette (parse : String → Option CustomPalette) (raw : Option String) : CustomPalette :=
  safeJsonParse parse raw defaultCustomPalette

/-- The customPaletteEnabled initializer of src/App.tsx lines 118 to 121:
false for a falsy stored value, otherwise comparison with the string 1. -/
def initCustomPaletteEnabled (raw : Option String) : Bool :=
  match raw with
  | none => false
  | some s => if s = "" then false else s == "1"

/-! ## The sanitization procedure as the spec words it -/

/-- Base-name sanitization following the spec text literally, for comparison
with exportBase: trim surrounding whitespace, replace each occurrence of a
forbidden character by a dash, collapse remaining whitespace runs to a
dash, and fall back to the default base name when the result after
sanitization is empty. -/
def sanitizeBaseSpec (raw : String) : String :=
  let trimmed := jsTrim raw
  let replaced := String.mk (trimmed.data.map (fun c => if isBadFileChar c then '-' else c))
  let collapsed := replaceRuns isJsWs '-' replaced
  if collapsed = "" then "vite-html-editor-export" else collapsed

/-! ## Sample states used by the witnesses -/

/-- A sample engine holding one node and one rule, with nothing selected and
a lossless serializer. -/
def gNoSel : GEditor :=
  { htmlText := "<p>hi</p>", cssText := "body\x7bmargin:0\x7d", cssSer := fun s => s,
    selected := none, setChildren := fun _ h => Except.ok h }

/-- A sample engine with a selected node whose children assignment throws. -/
def gSel : GEditor :=
  { htmlText := "<p>hi</p>", cssText := "body\x7bmargin:0\x7d", cssSer := fun s => s,
    selected := some 0, setChildren := fun _ _ => Except.error "Unexpected token <" }

/-- A sample sync state with nothing armed. -/
def sZero : SyncState :=
  { armed := false, htmlValue := "", cssValue := "", regenCount := 0 }

/-- A parse function on which JSON parsing always fails, for head settings. -/
def noParseHead : String → Option HeadSettings := fun _ => none

/-- A parse function on which JSON parsing always fails, for palettes. -/
def noParsePalette : String → Option CustomPalette := fun _ => none

/-! ## Helper lemmas -/

theorem mem_collapseRunsAux {p : Char → Bool} {d c : Char} :
    ∀ (l : List Char) (b : Bool), c ∈ collapseRunsAux p d b l → c = d ∨ (c ∈ l ∧ p c = false) := by
  intro l
  induction l with
  | nil =>
    intro b h
    simp [collapseRunsAux] at h
  | cons a as ih =>
    intro b h
    rw [collapseRunsAux] at h
    cases hpa : p a with
    | true =>
      rw [hpa] at h
      simp only [if_true] at h
      cases b with
      | true =>
        simp only [if_true] at h
        rcases ih true h with h1 | ⟨h2, h3⟩
        · exact Or.inl h1
        · exact Or.inr ⟨List.mem_cons_of_mem a h2, h3⟩
      | false =>
        simp only [Bool.false_eq_true, if_false, List.mem_cons] at h
        rcases h with h1 | h2
        · exact Or.inl h1
        · rcases ih true h2 with h3 | ⟨h4, h5⟩
          · exact Or.inl h3
          · exact Or.inr ⟨List.mem_cons_of_mem a h4, h5⟩
    | false =>
      rw [hpa] at h
      simp only [Bool.false_eq_true, if_false, List.mem_cons] at h
      rcases h with h1 | h2
      · subst h1
        exact Or.inr ⟨List.mem_cons_self c as, hpa⟩
      · rcases ih false h2 with h3 | ⟨h4, h5⟩
        · exact Or.inl h3
        · exact Or.inr ⟨List.mem_cons_of_mem a h4, h5⟩

theorem exportBase_chars (raw : String) (c : Char) (hc : c ∈ (exportBase raw).data) :
    isBadFileChar c = false ∧ isJsWs c = false := by
  have hc1 : c ∈ collapseRunsAux isJsWs '-' false
      (collapseRunsAux isBadFileChar '-' false
        (jsTrim (if raw = "" then "vite-html-editor-export" else raw)).data) := hc
  rcases mem_collapseRunsAux _ _ hc1 with h1 | ⟨h2, h3⟩
  · subst h1
    exact ⟨by decide, by decide⟩
  · rcases mem_collapseRunsAux _ _ h2 with h4 | ⟨_, h6⟩
    · subst h4
      exact ⟨by decide, by decide⟩
    · exact ⟨h6, h3⟩

theorem scheduleSync_armed (s : SyncState) (h : s.armed = true) : scheduleSync s = s := by
  simp [scheduleSync, h]

theorem fireEvents_armed : ∀ (n : Nat) (s : SyncState), s.armed = true → fireEvents n s = s := by
  intro n
  induction n with
  | zero => intro s _; rfl
  | succ n ih =>
    intro s h
    show fireEvents n (scheduleSync s) = s
    rw [scheduleSync_armed s h]
    exact ih s h

theorem fireEvents_pos (n : Nat) (s : SyncState) (h : s.armed = false) :
    fireEvents (n + 1) s = { s with armed := true } := by
  show fireEvents n (scheduleSync s) = _
  have hs : scheduleSync s = { s with armed := true } := by
    simp [scheduleSync, h]
  rw [hs]
  exact fireEvents_armed n _ rfl

theorem iterSync_vals (ed : GEditor) :
    ∀ (n : Nat) (s : SyncState),
      (iterSync ed (n + 1) s).htmlValue = getEditorHtml ed ∧
      (iterSync ed (n + 1) s).cssValue = getEditorCss ed := by
  intro n
  induction n with
  | zero => intro s; exact ⟨rfl, rfl⟩
  | succ n ih => intro s; exact ih (syncRegen ed s)

/-! ## Claims -/

/-- C1: for every engine state, js text, and head settings, the export
produces exactly three payloads: the html payload is, in order, the
doctype, the html element with the en lang attribute, the head holding the
charset meta, the viewport meta, the escaped effective title (the escape of
the defaulted and trimmed page title, settled precisely in the C10
theorem), the head fragment verbatim, and the stylesheet link to the
sanitized base followed by .css; then the body holding the html fragment
verbatim and the script tag pointing at the sanitized base followed by .js.
The title T ampersand T escapes to T amp T, the css payload is the css
input verbatim, and the js payload is the js input verbatim. -/
theorem C1_export_document_shape (ed : GEditor) (js : String) (hs : HeadSettings) :
    exportProjectFiles ed js hs =
      [{ filename := exportBase hs.exportBaseName ++ ".html",
         content :=
           "<!doctype html>\n<html lang=\"en\">\n<head>\n  <meta charset=\"utf-8\" />\n  <meta name=\"viewport\" content=\"width=device-width,initial-scale=1\" />\n  <title>" ++
             (escapeHtml (effPageTitle hs.pageTitle) ++
               ("</title>\n" ++
                 (effHeadHtml hs.headHtml ++
                   ("\n  <link rel=\"stylesheet\" href=\"./" ++
                     (exportBase hs.exportBaseName ++
                       (".css\" />\n</head>\n<body>\n" ++
                         (getEditorHtml ed ++
                           ("\n<script src=\"./" ++
                             (exportBase hs.exportBaseName ++
                               ".js\"></script>\n</body>\n</html>"))))))))),
         mime := "text/html;charset=utf-8" },
       { filename := exportBase hs.exportBaseName ++ ".css", content := getEditorCss ed,
         mime := "text/css;charset=utf-8" },
       { filename := exportBase hs.exportBaseName ++ ".js", content := js,
         mime := "text/javascript;charset=utf-8" }] ∧
    escapeHtml "T&T" = "T&amp;T" := by
  constructor
  · simp only [exportProjectFiles, exportHtmlDoc, String.append_assoc]
  · decide

/-- C2 counterexample: the claim says the fixed default base name is used
whenever the result after sanitization is empty, and that each forbidden
character is replaced by a dash. The code substitutes the default before
sanitizing, so a whitespace-only input sanitizes to the empty base with no
fallback, and the regex replaces a whole run of forbidden characters by a
single dash. -/
theorem C2_sanitize_counterexample :
    exportBase " " ≠ sanitizeBaseSpec " " ∧
    exportBase " " = "" ∧
    sanitizeBaseSpec " " = "vite-html-editor-export" ∧
    exportBase "a//b" ≠ sanitizeBaseSpec "a//b" ∧
    exportBase "a//b" = "a-b" ∧
    sanitizeBaseSpec "a//b" = "a--b" := by
  decide

/-- C2 amended: the default base name is substituted for the raw input only
when the raw input is the empty string, before sanitization; the sanitizer
then trims surrounding whitespace, replaces each maximal run of the
forbidden characters by a single dash, and collapses each maximal
whitespace run to a single dash, so a whitespace-only input yields an empty
base with no fallback. Concretely the slash-colon example maps to a-b-c and
the empty input to the default; moreover no character of any sanitized base
is a forbidden character or whitespace. -/
theorem C2_sanitize_amended (raw : String) (c : Char) (hc : c ∈ (exportBase raw).data) :
    exportBase "" = "vite-html-editor-export" ∧
    exportBase " " = "" ∧
    exportBase "a/b:c" = "a-b-c" ∧
    exportBase "  a/b:c  " = "a-b-c" ∧
    exportBase "My Site!.html" = "My-Site!.html" ∧
    exportBase "a//b" = "a-b" ∧
    isBadFileChar c = false ∧ isJsWs c = false := by
  have h := exportBase_chars raw c hc
  exact ⟨by decide, by decide, by decide, by decide, by decide, by decide, h.1, h.2⟩

/-- C2 amended witness at the input x and its character x. -/
theorem C2_sanitize_amended_witness :
    ('x' ∈ (exportBase "x").data) ∧
    (exportBase "" = "vite-html-editor-export" ∧
     exportBase " " = "" ∧
     exportBase "a/b:c" = "a-b-c" ∧
     exportBase "  a/b:c  " = "a-b-c" ∧
     exportBase "My Site!.html" = "My-Site!.html" ∧
     exportBase "a//b" = "a-b" ∧
     isBadFileChar 'x' = false ∧ isJsWs 'x' = false) :=
  ⟨by decide, C2_sanitize_amended "x" 'x' (by decide)⟩

/-- C3: with no selection, the html apply fails with a message containing
the no-component-selected text and returns the engine unchanged, for every
engine state, in particular for documents holding at least one node. -/
theorem C3_no_selection (ed : GEditor) (text : String) (hsel : ed.selected = none) :
    (applyHtmlToSelected ed text).2.ok = false ∧
    strContains (applyHtmlToSelected ed text).2.message "No component selected" ∧
    (applyHtmlToSelected ed text).1 = ed ∧
    getEditorHtml (applyHtmlToSelected ed text).1 = getEditorHtml ed ∧
    getEditorCss (applyHtmlToSelected ed text).1 = getEditorCss ed := by
  have h : applyHtmlToSelected ed text =
      (ed, { ok := false,
             message := "No component selected. Click an element on the canvas, then apply HTML." }) := by
    unfold applyHtmlToSelected
    rw [hsel]
  rw [h]
  exact ⟨rfl, ⟨"", ". Click an element on the canvas, then apply HTML.", rfl⟩, rfl, rfl, rfl⟩

/-- C3 witness: the sample engine holds one node and nothing is selected. -/
theorem C3_no_selection_witness :
    gNoSel.selected = none ∧
    ((applyHtmlToSelected gNoSel "<div>x</div>").2.ok = false ∧
     strContains (applyHtmlToSelected gNoSel "<div>x</div>").2.message "No component selected" ∧
     (applyHtmlToSelected gNoSel "<div>x</div>").1 = gNoSel ∧
     getEditorHtml (applyHtmlToSelected gNoSel "<div>x</div>").1 = getEditorHtml gNoSel ∧
     getEditorCss (applyHtmlToSelected gNoSel "<div>x</div>").1 = getEditorCss gNoSel) :=
  ⟨rfl, C3_no_selection gNoSel "<div>x</div>" rfl⟩

/-- C4: when the children assignment on the selected node throws, the apply
returns a failure whose message contains the cause text and the engine is
returned unchanged; no exception escapes, the result is an ordinary
ApplyResult value. -/
theorem C4_apply_failure_atomic (ed : GEditor) (text : String) (n : Nat) (err : String)
    (hsel : ed.selected = some n) (hfail : ed.setChildren n text = Except.error err) :
    (applyHtmlToSelected ed text).2.ok = false ∧
    strContains (applyHtmlToSelected ed text).2.message err ∧
    (applyHtmlToSelected ed text).1 = ed ∧
    getEditorHtml (applyHtmlToSelected ed text).1 = getEditorHtml ed ∧
    getEditorCss (applyHtmlToSelected ed text).1 = getEditorCss ed := by
  have h : applyHtmlToSelected ed text =
      (ed, { ok := false, message := "Failed to apply HTML: " ++ err }) := by
    simp only [applyHtmlToSelected, hsel, hfail]
  rw [h]
  refine ⟨rfl, ⟨"Failed to apply HTML: ", "", ?_⟩, rfl, rfl, rfl⟩
  rw [String.append_empty]

/-- C4 witness: the sample engine whose children assignment throws an
unexpected-token error. -/
theorem C4_apply_failure_atomic_witness :
    gSel.selected = some 0 ∧
    gSel.setChildren 0 "<div" = Except.error "Unexpected token <" ∧
    ((applyHtmlToSelected gSel "<div").2.ok = false ∧
     strContains (applyHtmlToSelected gSel "<div").2.message "Unexpected token <" ∧
     (applyHtmlToSelected gSel "<div").1 = gSel ∧
     getEditorHtml (applyHtmlToSelected gSel "<div").1 = getEditorHtml gSel ∧
     getEditorCss (applyHtmlToSelected gSel "<div").1 = getEditorCss gSel) :=
  ⟨rfl, rfl, C4_apply_failure_atomic gSel "<div" 0 "Unexpected token <" rfl rfl⟩

/-- C5: with an editor attached and advanced mode off, applyEdits only sets
the enable-advanced-mode status, whatever the active tab; the engine comes
back identical, so its html and css serializations are unchanged. -/
theorem C5_readonly_no_mutation (ed : GEditor) (st : TabsState) :
    applyEdits (some ed) false st =
      (some ed, { st with status := "Enable Advanced Editing Mode to apply changes." }) ∧
    ((applyEdits (some ed) false st).1.map getEditorHtml) = some (getEditorHtml ed) ∧
    ((applyEdits (some ed) false st).1.map getEditorCss) = some (getEditorCss ed) := by
  exact ⟨rfl, rfl, rfl⟩

/-- C6: firing any positive number of change events within one frame is the
same as firing one (the first arms the flag, the rest are no-ops), the
frame callback then clears the flag and regenerates exactly once, and the
regenerated text equals the engine serializations, exactly what a single
trailing event would have produced. -/
theorem C6_frame_coalescing (ed : GEditor) (s : SyncState) (n : Nat)
    (hn : 1 ≤ n) (h : s.armed = false) :
    fireEvents n s = scheduleSync s ∧
    (fireEvents n s).armed = true ∧
    frameCallback ed (fireEvents n s) = frameCallback ed (fireEvents 1 s) ∧
    (frameCallback ed (fireEvents n s)).regenCount = s.regenCount + 1 ∧
    (frameCallback ed (fireEvents n s)).armed = false ∧
    (frameCallback ed (fireEvents n s)).htmlValue = getEditorHtml ed ∧
    (frameCallback ed (fireEvents n s)).cssValue = getEditorCss ed := by
  obtain ⟨m, rfl⟩ : ∃ m, n = m + 1 := ⟨n - 1, (Nat.succ_pred_eq_of_pos hn).symm⟩
  have hsch : scheduleSync s = { s with armed := true } := by
    simp [scheduleSync, h]
  rw [fireEvents_pos m s h, fireEvents_pos 0 s h, hsch]
  refine ⟨rfl, rfl, rfl, ?_, ?_, ?_, ?_⟩ <;>
    simp [frameCallback, syncRegen]

/-- C6 witness at three events fired from the unarmed sample state. -/
theorem C6_frame_coalescing_witness :
    1 ≤ 3 ∧
    (fireEvents 3 sZero = scheduleSync sZero ∧
     (fireEvents 3 sZero).armed = true ∧
     frameCallback gNoSel (fireEvents 3 sZero) = frameCallback gNoSel (fireEvents 1 sZero) ∧
     (frameCallback gNoSel (fireEvents 3 sZero)).regenCount = sZero.regenCount + 1 ∧
     (frameCallback gNoSel (fireEvents 3 sZero)).armed = false ∧
     (frameCallback gNoSel (fireEvents 3 sZero)).htmlValue = getEditorHtml gNoSel ∧
     (frameCallback gNoSel (fireEvents 3 sZero)).cssValue = getEditorCss gNoSel) :=
  ⟨by decide, C6_frame_coalescing gNoSel sZero 3 (by decide) rfl⟩

/-- C7: applying T as the global stylesheet stores T verbatim as the whole
stylesheet, and when the engine serializer is lossless on T the css read
back by the next forward sync equals T. -/
theorem C7_css_roundtrip (ed : GEditor) (T : String) (s : SyncState)
    (hLossless : ed.cssSer T = T) :
    (applyGlobalCss ed T).cssText = T ∧
    getEditorCss (applyGlobalCss ed T) = T ∧
    (syncRegen (applyGlobalCss ed T) s).cssValue = T := by
  exact ⟨rfl, hLossless, hLossless⟩

/-- C7 witness: the sample engine serializer is the identity, hence
lossless on the sample rule. -/
theorem C7_css_roundtrip_witness :
    gNoSel.cssSer "main\x7bcolor:red\x7d" = "main\x7bcolor:red\x7d" ∧
    ((applyGlobalCss gNoSel "main\x7bcolor:red\x7d").cssText = "main\x7bcolor:red\x7d" ∧
     getEditorCss (applyGlobalCss gNoSel "main\x7bcolor:red\x7d") = "main\x7bcolor:red\x7d" ∧
     (syncRegen (applyGlobalCss gNoSel "main\x7bcolor:red\x7d") sZero).cssValue =
       "main\x7bcolor:red\x7d") :=
  ⟨rfl, C7_css_roundtrip gNoSel "main\x7bcolor:red\x7d" sZero rfl⟩

/-- C8: against an unchanged engine, any positive number of sync
regenerations leaves the html and css text equal to the engine
serializations, so any two run counts produce byte-identical text. -/
theorem C8_forward_sync_idempotent (ed : GEditor) (s : SyncState) (j k : Nat)
    (hj : 1 ≤ j) (hk : 1 ≤ k) :
    (iterSync ed j s).htmlValue = getEditorHtml ed ∧
    (iterSync ed j s).cssValue = getEditorCss ed ∧
    (iterSync ed j s).htmlValue = (iterSync ed k s).htmlValue ∧
    (iterSync ed j s).cssValue = (iterSync ed k s).cssValue := by
  obtain ⟨j0, rfl⟩ : ∃ m, j = m + 1 := ⟨j - 1, (Nat.succ_pred_eq_of_pos hj).symm⟩
  obtain ⟨k0, rfl⟩ : ∃ m, k = m + 1 := ⟨k - 1, (Nat.succ_pred_eq_of_pos hk).symm⟩
  obtain ⟨hjh, hjc⟩ := iterSync_vals ed j0 s
  obtain ⟨hkh, hkc⟩ := iterSync_vals ed k0 s
  exact ⟨hjh, hjc, hjh.trans hkh.symm, hjc.trans hkc.symm⟩

/-- C8 witness at two and five repetitions from the sample state. -/
theorem C8_forward_sync_idempotent_witness :
    1 ≤ 2 ∧ 1 ≤ 5 ∧
    ((iterSync gNoSel 2 sZero).htmlValue = getEditorHtml gNoSel ∧
     (iterSync gNoSel 2 sZero).cssValue = getEditorCss gNoSel ∧
     (iterSync gNoSel 2 sZero).htmlValue = (iterSync gNoSel 5 sZero).htmlValue ∧
     (iterSync gNoSel 2 sZero).cssValue = (iterSync gNoSel 5 sZero).cssValue) :=
  ⟨by decide, by decide, C8_forward_sync_idempotent gNoSel sZero 2 5 (by decide) (by decide)⟩

/-- C9 counterexample: the claim says a malformed stored value for any of
the four settings falls back to its default, but the themeChoice
initializer uses any present stored string as-is through an unchecked type
cast, so a stored value outside the ThemeChoice union is kept, not
defaulted to auto. -/
theorem C9_settings_counterexample :
    initThemeChoice (some "banana") = "banana" ∧
    ¬ "banana" ∈ themeChoices ∧
    initThemeChoice (some "banana") ≠ "auto" := by
  decide

/-- C9 amended: headSettings and customPalette fall back to their defaults
when the stored entry is absent, empty, or fails to parse as JSON;
customPaletteEnabled is false when absent and false for any stored value
other than the string 1; themeChoice falls back to auto only when the entry
is absent, while a present stored value, malformed or not, is used as-is
without validation; no fallback raises an error. -/
theorem C9_settings_defaults_amended
    (parseH : String → Option HeadSettings) (parseP : String → Option CustomPalette)
    (sH sP sE sT : String)
    (hH : parseH sH = none) (hP : parseP sP = none) (hE : sE ≠ "1") :
    initThemeChoice none = "auto" ∧
    initThemeChoice (some sT) = sT ∧
    initHeadSettings parseH none = defaultHeadSettings ∧
    initHeadSettings parseH (some sH) = defaultHeadSettings ∧
    initCustomPalette parseP none = defaultCustomPalette ∧
    initCustomPalette parseP (some sP) = defaultCustomPalette ∧
    initCustomPaletteEnabled none = false ∧
    initCustomPaletteEnabled (some sE) = false := by
  refine ⟨rfl, rfl, rfl, ?_, rfl, ?_, rfl, ?_⟩
  · unfold initHeadSettings safeJsonParse
    by_cases h0 : sH = ""
    · simp [h0]
    · simp [h0, hH]
  · unfold initCustomPalette safeJsonParse
    by_cases h0 : sP = ""
    · simp [h0]
    · simp [h0, hP]
  · unfold initCustomPaletteEnabled
    by_cases h0 : sE = ""
    · simp [h0]
    · simp only [h0, if_false]
      exact beq_false_of_ne hE

/-- C9 amended witness: failing parse functions, a non-JSON stored string,
a stored zero flag, and a malformed theme value. -/
theorem C9_settings_defaults_amended_witness :
    noParseHead "not json" = none ∧
    noParsePalette "not json" = none ∧
    "0" ≠ "1" ∧
    (initThemeChoice none = "auto" ∧
     initThemeChoice (some "banana") = "banana" ∧
     initHeadSettings noParseHead none = defaultHeadSettings ∧
     initHeadSettings noParseHead (some "not json") = defaultHeadSettings ∧
     initCustomPalette noParsePalette none = defaultCustomPalette ∧
     initCustomPalette noParsePalette (some "not json") = defaultCustomPalette ∧
     initCustomPaletteEnabled none = false ∧
     initCustomPaletteEnabled (some "0") = false) :=
  ⟨rfl, rfl, by decide,
   C9_settings_defaults_amended noParseHead noParsePalette "not json" "not json" "0" "banana"
     rfl rfl (by decide)⟩

/-- C10: the title inserted into the exported html payload is the escape of
the effective page title, which is the trimmed page title, with the fixed
default title substituted when the page title is the empty string; the
payload decomposes around that escaped title. -/
theorem C10_title_default_and_trim (t : String) (ed : GEditor) (hs : HeadSettings) :
    escapeHtml (effPageTitle t) =
      (if t = "" then "Vite HTML Editor Export" else escapeHtml (jsTrim t)) ∧
    ∃ pre post, exportHtmlDoc (getEditorHtml ed) hs =
        pre ++ (escapeHtml (effPageTitle hs.pageTitle) ++ post) := by
  constructor
  · by_cases h : t = ""
    · subst h
      rw [if_pos rfl]
      decide
    · rw [if_neg h]
      unfold effPageTitle
      rw [if_neg h]
  · refine ⟨"<!doctype html>\n<html lang=\"en\">\n<head>\n  <meta charset=\"utf-8\" />\n  <meta name=\"viewport\" content=\"width=device-width,initial-scale=1\" />\n  <title>",
      "</title>\n" ++ (effHeadHtml hs.headHtml ++
        ("\n  <link rel=\"stylesheet\" href=\"./" ++ (exportBase hs.exportBaseName ++
          (".css\" />\n</head>\n<body>\n" ++ (getEditorHtml ed ++
            ("\n<script src=\"./" ++ (exportBase hs.exportBaseName ++
              ".js\"></script>\n</body>\n</html>"))))))), ?_⟩
    simp only [exportHtmlDoc, String.append_assoc]
